import Mathlib

/-!
Verification development for the MCP Solana analytics gateway
(`src/index.js`): the JSON-RPC dispatcher, its two-tier cache
orchestration, the generative-call retry loop with session context,
and the composite aggregation handlers.

Each definition is a shallow embedding of the corresponding JavaScript
in `src/index.js` (line references in the doc comments).  JavaScript
objects whose key order matters (`JSON.stringify`, `tokensByMint`) are
modelled as ordered association lists; JavaScript `Map` is modelled as
an association list with in-place update; numbers are modelled as `Int`.
-/

namespace Mcp

/-- JSON values as the dispatcher sees them.  Objects keep their key
insertion order, exactly as JavaScript objects do. -/
inductive JVal where
  | null : JVal
  | bool : Bool → JVal
  | num : Int → JVal
  | str : String → JVal
  | arr : List JVal → JVal
  | obj : List (String × JVal) → JVal

/-- JavaScript truthiness on JSON values: `null`, `false`, `0` and the
empty string are falsy. -/
def jvalFalsy : JVal → Bool
  | JVal.null => true
  | JVal.bool b => !b
  | JVal.num n => n == 0
  | JVal.str s => s == ""
  | JVal.arr _ => false
  | JVal.obj _ => false

/-- Minimal JSON string quoting as performed by `JSON.stringify` on the
string fragments occurring here (escaping quote and backslash). -/
def jsonQuoteChar (c : Char) : String :=
  if c == '\"' then "\\\""
  else if c == '\\' then "\\\\"
  else String.singleton c

def jsonQuote (s : String) : String :=
  "\"" ++ String.join (s.toList.map jsonQuoteChar) ++ "\""

mutual

/-- `JSON.stringify` on the value model.  Object members are emitted in
insertion order — JavaScript performs no key canonicalization. -/
def jsonStringify : JVal → String
  | JVal.null => "null"
  | JVal.bool b => if b then "true" else "false"
  | JVal.num n => toString n
  | JVal.str s => jsonQuote s
  | JVal.arr xs => "[" ++ String.intercalate "," (jsonStringifyArr xs) ++ "]"
  | JVal.obj kvs => "\x7b" ++ String.intercalate "," (jsonStringifyObj kvs) ++ "\x7d"

/-- Serialized elements of a JSON array, in order. -/
def jsonStringifyArr : List JVal → List String
  | [] => []
  | x :: xs => jsonStringify x :: jsonStringifyArr xs

/-- Serialized members of a JSON object, in insertion order. -/
def jsonStringifyObj : List (String × JVal) → List String
  | [] => []
  | (k, v) :: kvs => (jsonQuote k ++ ":" ++ jsonStringify v) :: jsonStringifyObj kvs

end

/-- The cache key of `src/index.js` lines 120 and 227:
`` `${ method }:${ JSON.stringify(params) }` ``. -/
def cacheKey (method : String) (params : JVal) : String :=
  method ++ ":" ++ jsonStringify params

/-- The entries of an object parameter value (empty for non-objects),
used to speak about key/value sets irrespective of insertion order. -/
def objEntries : JVal → List (String × JVal)
  | JVal.obj kvs => kvs
  | _ => []

/-- Does the second character list start with the first? -/
def charsStart : List Char → List Char → Bool
  | [], _ => true
  | _ :: _, [] => false
  | a :: as, b :: bs => a == b && charsStart as bs

/-- Does the character list contain the pattern as a contiguous run? -/
def charsContain (pat : List Char) : List Char → Bool
  | [] => charsStart pat []
  | c :: cs => charsStart pat (c :: cs) || charsContain pat cs

/-- `String.prototype.includes` restricted to what the dispatcher needs:
substring containment. -/
def strContains (s pat : String) : Bool :=
  charsContain pat.toList s.toList

/-- The cacheability test of `src/index.js` lines 119 and 226:
`!method.includes('_generate') && !method.includes('context')`. -/
def isCacheable (method : String) : Bool :=
  !(strContains method "_generate") && !(strContains method "context")

/-- The tier-2 ("high-value") eligibility test of `src/index.js` line 230:
`method.includes('_overview') || method.includes('_details') || method.includes('_holders')`. -/
def isHighValue (method : String) : Bool :=
  strContains method "_overview" || strContains method "_details" ||
    strContains method "_holders"

/-- Tier-1 default TTL: `stdTTL: 120` of the `NodeCache` at
`src/index.js` line 52. -/
def tier1DefaultTTL : Nat := 120

/-- Tier-2 expiry: `EX: 300` of the Redis write at `src/index.js`
line 233. -/
def tier2TTL : Nat := 300

/-! ## Generative calls: retry loop and session context
(`handleOpenAIGenerate`, lines 273-340, and `handleAnthropicGenerate`,
lines 342-413) -/

/-- A conversation turn, `{ role, content }`. -/
structure Msg where
  role : String
  content : String
deriving DecidableEq

/-- A classified provider failure; `status` is absent when the thrown
error carries no HTTP-like status. -/
structure ApiError where
  status : Option Nat
  message : String
deriving DecidableEq

/-- The retry classification of lines 307 and 381:
`apiError.status === 429 || apiError.status >= 500`
(`undefined >= 500` is false in JavaScript). -/
def retryableStatus (e : ApiError) : Bool :=
  e.status == some 429 ||
    (match e.status with
     | some s => decide (500 ≤ s)
     | none => false)

/-- `const maxAttempts = 3` (lines 293 and 367). -/
def maxAttempts : Nat := 3

/-- The retry `while` loop shared verbatim by both generative handlers
(lines 296-314 and 370-388).  `provider i` is the outcome of the
provider invocation made while the `attempts` counter equals `i`.
The fuel argument equals `maxAttempts - attempts`, mirroring the loop
condition `attempts < maxAttempts`; the fuel-0 branch is the loop
falling through without a response, unreachable from the initial state
because every failing iteration either retries or throws.  Returns the
final outcome and the number of provider invocations performed. -/
def retryLoop (provider : Nat → Except ApiError String) :
    Nat → Nat → Except ApiError String × Nat
  | _, 0 => (Except.error (ApiError.mk none "no response"), 0)
  | attempts, fuel + 1 =>
    match provider attempts with
    | Except.ok text => (Except.ok text, 1)
    | Except.error apiError =>
      if maxAttempts ≤ attempts + 1 || !(retryableStatus apiError) then
        (Except.error apiError, 1)
      else
        let rest := retryLoop provider (attempts + 1) fuel
        (rest.1, rest.2 + 1)

/-- One full generative call against a provider: the retry loop entered
with `attempts = 0`. -/
def runGenerate (provider : Nat → Except ApiError String) :
    Except ApiError String × Nat :=
  retryLoop provider 0 maxAttempts

/-- The process-wide `contextStore = new Map()` (line 57), as an ordered
association list from session id to turn list. -/
abbrev CtxStore := List (String × List Msg)

/-- `Map.prototype.get`. -/
def storeGet (s : CtxStore) (k : String) : Option (List Msg) :=
  match s with
  | [] => none
  | (k2, v) :: rest => if k2 == k then some v else storeGet rest k

/-- `Map.prototype.set`: replaces in place or appends. -/
def storeSet (s : CtxStore) (k : String) (v : List Msg) : CtxStore :=
  match s with
  | [] => [(k, v)]
  | (k2, w) :: rest =>
    if k2 == k then (k2, v) :: rest else (k2, w) :: storeSet rest k v

/-- `Map.prototype.delete` (used by `handleClearContext`, line 421). -/
def storeDelete (s : CtxStore) (k : String) : CtxStore :=
  match s with
  | [] => []
  | (k2, w) :: rest =>
    if k2 == k then rest else (k2, w) :: storeDelete rest k

/-- The context truncation of `handleOpenAIGenerate` (lines 322-328):
`[updatedMessages[0], ...updatedMessages.slice(-9)]` when the length
exceeds 10, otherwise unchanged. -/
def truncateCtxOpenAI (updatedMessages : List Msg) : List Msg :=
  if 10 < updatedMessages.length then
    updatedMessages.take 1 ++ updatedMessages.drop (updatedMessages.length - 9)
  else updatedMessages

/-- The context truncation of `handleAnthropicGenerate`
(lines 395-401), textually identical to the OpenAI one. -/
def truncateCtxAnthropic (updatedMessages : List Msg) : List Msg :=
  if 10 < updatedMessages.length then
    updatedMessages.take 1 ++ updatedMessages.drop (updatedMessages.length - 9)
  else updatedMessages

/-- Parameters of the generative methods; `prompt = none` models an
absent or non-string prompt, and an empty string is falsy in the
`!prompt` check just as an absent one is. -/
structure GenParams where
  prompt : Option String
  session_id : Option String

/-- A wire error: `{ code, message }`. -/
structure McpError where
  code : Int
  message : String
deriving DecidableEq

/-- One `{ type: 'text', text }` content item. -/
structure TextContent where
  type : String
  text : String
deriving DecidableEq

/-- A handler result `{ content: [...] }`. -/
structure GenResult where
  content : List TextContent
deriving DecidableEq

/-- Is a generative-call string parameter falsy (absent or empty)? -/
def paramFalsy : Option String → Bool
  | none => true
  | some s => s == ""

/-- `handleOpenAIGenerate` (lines 273-340) as a pure function of the
provider outcome sequence and the context store.  Validation errors
(code `-32602`) are raised before the `try` block; failures inside it —
in particular retry-loop exhaustion — are wrapped as
`OpenAI error: <message>` with code `-32000`.  The session is written
back, through `truncateCtxOpenAI`, only on the success path. -/
def handleOpenAIGenerate (provider : Nat → Except ApiError String)
    (store : CtxStore) (p : GenParams) : Except McpError GenResult × CtxStore :=
  if paramFalsy p.prompt then
    (Except.error (McpError.mk (-32602) "Prompt is required and must be a string"), store)
  else if paramFalsy p.session_id then
    (Except.error (McpError.mk (-32602) "session_id is required"), store)
  else
    let prompt := p.prompt.getD ""
    let session_id := p.session_id.getD ""
    let previousMessages := (storeGet store session_id).getD []
    let messages := previousMessages ++ [Msg.mk "user" prompt]
    match runGenerate provider with
    | (Except.error e, _) =>
      (Except.error (McpError.mk (-32000) ("OpenAI error: " ++ e.message)), store)
    | (Except.ok responseContent, _) =>
      let updatedMessages := messages ++ [Msg.mk "assistant" responseContent]
      let contextToStore := truncateCtxOpenAI updatedMessages
      (Except.ok (GenResult.mk [TextContent.mk "text" responseContent]),
        storeSet store session_id contextToStore)

/-- `handleAnthropicGenerate` (lines 342-413), identical in structure to
the OpenAI handler but wrapping failures as `Anthropic error: <message>`
and truncating through `truncateCtxAnthropic`. -/
def handleAnthropicGenerate (provider : Nat → Except ApiError String)
    (store : CtxStore) (p : GenParams) : Except McpError GenResult × CtxStore :=
  if paramFalsy p.prompt then
    (Except.error (McpError.mk (-32602) "Prompt is required and must be a string"), store)
  else if paramFalsy p.session_id then
    (Except.error (McpError.mk (-32602) "session_id is required"), store)
  else
    let prompt := p.prompt.getD ""
    let session_id := p.session_id.getD ""
    let previousMessages := (storeGet store session_id).getD []
    let messages := previousMessages ++ [Msg.mk "user" prompt]
    match runGenerate provider with
    | (Except.error e, _) =>
      (Except.error (McpError.mk (-32000) ("Anthropic error: " ++ e.message)), store)
    | (Except.ok responseContent, _) =>
      let updatedMessages := messages ++ [Msg.mk "assistant" responseContent]
      let contextToStore := truncateCtxAnthropic updatedMessages
      (Except.ok (GenResult.mk [TextContent.mk "text" responseContent]),
        storeSet store session_id contextToStore)

/-- `handleClearContext` (lines 415-425). -/
def handleClearContext (store : CtxStore) (session_id : Option String) :
    Except McpError GenResult × CtxStore :=
  if paramFalsy session_id then
    (Except.error (McpError.mk (-32602) "session_id is required"), store)
  else
    (Except.ok (GenResult.mk [TextContent.mk "text" "Context cleared successfully"]),
      storeDelete store (session_id.getD ""))

/-! ## Dispatcher (`app.post` on `/mcp`, lines 96-271) -/

/-- The request envelope as destructured at line 98:
`const { jsonrpc, method, params, id } = req.body`.  `none` models an
absent field. -/
structure Envelope where
  jsonrpc : Option String
  method : Option String
  params : JVal
  id : Option JVal

/-- JavaScript truthiness of an optional JSON value (`!id`). -/
def idFalsy : Option JVal → Bool
  | none => true
  | some v => jvalFalsy v

/-- The envelope check of line 107:
`jsonrpc !== '2.0' || !method || !id`. -/
def envelopeInvalid (req : Envelope) : Bool :=
  !(req.jsonrpc == some "2.0") || paramFalsy req.method || idFalsy req.id

/-- The method names of the `switch` at lines 153-213. -/
def supportedMethods : List String :=
  ["openai_generate", "anthropic_generate", "clear_context",
   "solana_wallet_overview", "solana_wallet_tokens", "solana_wallet_nfts",
   "solana_wallet_pnl", "solana_token_details", "solana_token_price",
   "solana_token_ohlc", "solana_token_holders", "solana_program_details",
   "solana_program_metrics", "solana_program_users", "solana_token_transfers",
   "solana_trades", "solana_whale_movements", "solana_market_sentiment",
   "solana_network_activity", "solana_cross_analysis"]

/-- A tier-1 (`NodeCache`) entry: stored value plus the TTL it was
written with. -/
structure Tier1Entry where
  value : JVal
  ttl : Nat

/-- The tier-1 in-process cache as an association list. -/
abbrev Tier1 := List (String × Tier1Entry)

/-- `memoryCache.get`. -/
def tier1Get (c : Tier1) (k : String) : Option Tier1Entry :=
  match c with
  | [] => none
  | (k2, e) :: rest => if k2 == k then some e else tier1Get rest k

/-- `memoryCache.set(key, value)`: stores with the default TTL
(`stdTTL: 120`), replacing any existing entry. -/
def tier1Set (c : Tier1) (k : String) (v : JVal) : Tier1 :=
  match c with
  | [] => [(k, Tier1Entry.mk v tier1DefaultTTL)]
  | (k2, e) :: rest =>
    if k2 == k then (k2, Tier1Entry.mk v tier1DefaultTTL) :: rest
    else (k2, e) :: tier1Set rest k v

/-- The tier-1 hit test of lines 121-130: `memoryCache.get` followed by
the truthiness check `if(cachedResult)` (a falsy cached value behaves
as a miss). -/
def tier1Lookup (c : Tier1) (k : String) : Option JVal :=
  match tier1Get c k with
  | some e => if jvalFalsy e.value then none else some e.value
  | none => none

/-- The tier-2 (Redis) connection for one request.  `getResult k` is the
outcome of `await redisClient.get(k)` followed by `JSON.parse`; a
rejected `get` and an unparsable payload both land in the `catch` at
lines 145-147 and are modelled as `Except.error ()`.  `setOutcome` is
the outcome of `await redisClient.set(...)`, whose failure lands in the
`catch` at lines 235-237. -/
structure Tier2Conn where
  isReady : Bool
  getResult : String → Except Unit (Option JVal)
  setOutcome : Except Unit Unit

/-- Per-request dispatch environment: the optional Redis client
(`redisClient` is `null` without `REDIS_URL`, line 41) and the outcome
each supported method handler would produce for this request. -/
structure DispatchEnv where
  tier2 : Option Tier2Conn
  handler : String → JVal → Except McpError JVal

/-- The tier-2 lookup of lines 132-148: consulted only when the client
exists and `isReady`; a hit returns the parsed value, everything else
(absent client, not ready, null reply, rejected `get`, parse failure)
falls through as a miss. -/
def tier2Lookup (t2 : Option Tier2Conn) (k : String) : Option JVal :=
  match t2 with
  | none => none
  | some conn =>
    if conn.isReady then
      match conn.getResult k with
      | Except.ok (some v) => some v
      | Except.ok none => none
      | Except.error _ => none
    else none

/-- The JSON-RPC response body sent by the dispatcher. -/
inductive RpcBody where
  | ok (result : JVal) (id : JVal)
  | err (code : Int) (message : String) (id : Option JVal)

/-- The HTTP response: status code plus JSON-RPC body. -/
structure RpcOut where
  status : Nat
  body : RpcBody

/-- Observable side effects of one dispatch: whether a method handler
ran, whether tier 1 was consulted, whether a tier-2 read was attempted,
the tier-1 write performed (key, value, ttl) and the tier-2 write
attempted (key, serialized value, EX seconds). -/
structure DispatchLog where
  handlerInvoked : Bool
  tier1Read : Bool
  tier2Read : Bool
  tier1Write : Option (String × JVal × Nat)
  tier2WriteReq : Option (String × String × Nat)

/-- The log of a request that performed no cache activity and invoked
no handler. -/
def emptyLog : DispatchLog :=
  DispatchLog.mk false false false none none

/-- Result of one dispatch: response, updated tier-1 cache, effect log. -/
structure DispatchResult where
  out : RpcOut
  tier1 : Tier1
  log : DispatchLog

/-- The `switch` (lines 153-224) plus the cache-population step
(lines 226-239) and the error mapping of the outer `catch`
(lines 253-270): unknown methods yield `-32601` before any cache write;
a handler failure is re-expressed with its carried code and HTTP
status 500 (`error.httpCode` is never set in this file); a successful
cacheable result is written to tier 1 unconditionally and its Redis
write is attempted only for ready clients and high-value methods, with
`EX: 300`; a failed Redis write is caught and ignored. -/
def invokeAndRespond (env : DispatchEnv) (tier1 : Tier1) (method : String)
    (params : JVal) (id : JVal) (logBase : DispatchLog) : DispatchResult :=
  if supportedMethods.contains method then
    match env.handler method params with
    | Except.error e =>
      DispatchResult.mk (RpcOut.mk 500 (RpcBody.err e.code e.message (some id))) tier1
        (DispatchLog.mk true logBase.tier1Read logBase.tier2Read none none)
    | Except.ok result =>
      if isCacheable method then
        let ckey := cacheKey method params
        let t2write :=
          match env.tier2 with
          | some conn =>
            if conn.isReady && isHighValue method then
              some (ckey, jsonStringify result, tier2TTL)
            else none
          | none => none
        DispatchResult.mk (RpcOut.mk 200 (RpcBody.ok result id)) (tier1Set tier1 ckey result)
          (DispatchLog.mk true logBase.tier1Read logBase.tier2Read
            (some (ckey, result, tier1DefaultTTL)) t2write)
      else
        DispatchResult.mk (RpcOut.mk 200 (RpcBody.ok result id)) tier1
          (DispatchLog.mk true logBase.tier1Read logBase.tier2Read none none)
  else
    DispatchResult.mk
      (RpcOut.mk 404 (RpcBody.err (-32601) ("Method \x27" ++ method ++ "\x27 not found") (some id)))
      tier1 logBase

/-- The `/mcp` request handler (lines 96-271): envelope validation,
cacheability test, tier-1 then tier-2 lookup, handler invocation and
cache population. -/
def dispatch (env : DispatchEnv) (tier1 : Tier1) (req : Envelope) : DispatchResult :=
  if envelopeInvalid req then
    DispatchResult.mk (RpcOut.mk 400 (RpcBody.err (-32600) "Invalid JSON-RPC request" none))
      tier1 emptyLog
  else
    let method := req.method.getD ""
    let id := req.id.getD JVal.null
    if isCacheable method then
      let ckey := cacheKey method req.params
      match tier1Lookup tier1 ckey with
      | some v =>
        DispatchResult.mk (RpcOut.mk 200 (RpcBody.ok v id)) tier1
          (DispatchLog.mk false true false none none)
      | none =>
        let t2read :=
          match env.tier2 with
          | some conn => conn.isReady
          | none => false
        match tier2Lookup env.tier2 ckey with
        | some v =>
          DispatchResult.mk (RpcOut.mk 200 (RpcBody.ok v id)) (tier1Set tier1 ckey v)
            (DispatchLog.mk false true t2read (some (ckey, v, tier1DefaultTTL)) none)
        | none =>
          invokeAndRespond env tier1 method req.params id
            (DispatchLog.mk false true t2read none none)
    else
      invokeAndRespond env tier1 method req.params id emptyLog

/-! ## Wallet overview aggregation
(`handleSolanaWalletOverview`, lines 430-476) -/

/-- JavaScript `a || b` on an optional number (`0` is falsy). -/
def jsOrNum (a : Option Int) (b : Int) : Int :=
  match a with
  | some v => if v == 0 then b else v
  | none => b

/-- JavaScript `a || b` on an optional string (`""` is falsy). -/
def jsOrStr (a : Option String) (b : String) : String :=
  match a with
  | some s => if s == "" then b else s
  | none => b

/-- A token balance as returned by the upstream wallet-tokens call. -/
structure WalletToken where
  mintAddress : String
  symbol : Option String
  amount : Int
  valueUsd : Option Int
deriving DecidableEq

/-- An NFT balance as returned by the upstream wallet-NFTs call. -/
structure NftItem where
  valueUsd : Option Int
  usdPrice : Option Int
deriving DecidableEq

/-- An upstream analytics outcome: a rejection message, or a payload
whose `data` field may be absent (`none`). -/
abbrev Upstream (α : Type) := Except String (Option (List α))

/-- `handleSolanaWalletOverview` (lines 430-476) as a pure function of
the two upstream outcomes.  `Promise.all` creates both upstream calls
before awaiting, so both are always issued (the second component counts
them); if either rejects the whole aggregation rejects and the `catch`
wraps the reason as `Error fetching Solana data: <message>` with code
`-32000`.  When both fulfil, the totals of lines 442-454 are computed
(`token.valueUsd || 0` and `nft.valueUsd || nft.usdPrice || 0`). -/
def handleSolanaWalletOverview (tokensCall : Upstream WalletToken)
    (nftsCall : Upstream NftItem) (address : Option String) :
    Except McpError GenResult × Nat :=
  if paramFalsy address then
    (Except.error (McpError.mk (-32602) "Wallet address is required"), 0)
  else
    match tokensCall, nftsCall with
    | Except.error e, _ =>
      (Except.error (McpError.mk (-32000) ("Error fetching Solana data: " ++ e)), 2)
    | _, Except.error e =>
      (Except.error (McpError.mk (-32000) ("Error fetching Solana data: " ++ e)), 2)
    | Except.ok tokensData, Except.ok nftsData =>
      let tokenCount := (tokensData.getD []).length
      let nftCount := (nftsData.getD []).length
      let totalUsdValue :=
        ((tokensData.getD []).map (fun t => jsOrNum t.valueUsd 0)).foldl (· + ·) 0 +
          ((nftsData.getD []).map (fun n => jsOrNum n.valueUsd (jsOrNum n.usdPrice 0))).foldl
            (· + ·) 0
      let text := "Wallet Overview for " ++ address.getD "" ++ ":\nTotal USD Value: $" ++
        toString totalUsdValue ++ "\nNumber of Tokens: " ++ toString tokenCount ++
        "\nNumber of NFTs: " ++ toString nftCount
      (Except.ok (GenResult.mk [TextContent.mk "text" text]), 2)

/-! ## Cross-wallet analysis
(`handleSolanaCrossAnalysis`, lines 1163-1226) -/

/-- One holding inside `tokensByMint[mint].holders[address]`
(line 1189): `{ amount, usdValue: token.valueUsd || 0 }`. -/
structure Holding where
  amount : Int
  usdValue : Int
deriving DecidableEq

/-- One `tokensByMint` entry (line 1184): the symbol fixed at creation
(`token.symbol || 'Unknown'`) and the per-address holdings, in address
insertion order. -/
structure MintInfo where
  symbol : String
  holders : List (String × Holding)
deriving DecidableEq

/-- `holders[address] = ...`: replace in place or append. -/
def holdersSet (hs : List (String × Holding)) (k : String) (v : Holding) :
    List (String × Holding) :=
  match hs with
  | [] => [(k, v)]
  | (k2, w) :: rest =>
    if k2 == k then (k2, v) :: rest else (k2, w) :: holdersSet rest k v

/-- Lines 1183-1192: create the `tokensByMint[mint]` entry if absent,
then assign `holders[address]`. -/
def addHolding (m : List (String × MintInfo)) (mint sym addr : String)
    (h : Holding) : List (String × MintInfo) :=
  match m with
  | [] => [(mint, MintInfo.mk sym [(addr, h)])]
  | (k, info) :: rest =>
    if k == mint then
      (k, MintInfo.mk info.symbol (holdersSet info.holders addr h)) :: rest
    else (k, info) :: addHolding rest mint sym addr h

/-- The inner `result.data.forEach(token => ...)` of lines 1182-1193 for
one address. -/
def addWalletData (addr : String) (m : List (String × MintInfo)) :
    Option (List WalletToken) → List (String × MintInfo)
  | none => m
  | some toks =>
    toks.foldl
      (fun acc t =>
        addHolding acc t.mintAddress (jsOrStr t.symbol "Unknown") addr
          (Holding.mk t.amount (jsOrNum t.valueUsd 0)))
      m

/-- The outer `tokenResults.forEach((result, index) => ...)` of
lines 1179-1195, building `tokensByMint`. -/
def buildTokensByMint : List (String × Option (List WalletToken)) →
    List (String × MintInfo) → List (String × MintInfo)
  | [], m => m
  | (addr, d) :: rest, m => buildTokensByMint rest (addWalletData addr m d)

/-- The descending-by-holder-count comparison: JavaScript
`.sort((a, b) => bCount - aCount)` puts `a` before `b` exactly when
`b` has at most as many holders. -/
def holderCountGe (a b : String × MintInfo) : Bool :=
  decide (b.2.holders.length ≤ a.2.holders.length)

/-- Lines 1196-1198: filter to tokens held by more than one address and
stable-sort descending by holder count. -/
def commonTokens (tbm : List (String × MintInfo)) : List (String × MintInfo) :=
  (tbm.filter (fun kv => decide (1 < kv.2.holders.length))).mergeSort holderCountGe

/-- `Promise.all` over the per-address wallet-token calls (lines
1170-1173): rejects with the first rejection, otherwise collects the
payloads in address order. -/
def collectResults (fetch : String → Upstream WalletToken) :
    List String → Except String (List (Option (List WalletToken)))
  | [] => Except.ok []
  | a :: rest =>
    match fetch a with
    | Except.error e => Except.error e
    | Except.ok d =>
      match collectResults fetch rest with
      | Except.error e => Except.error e
      | Except.ok ds => Except.ok (d :: ds)

/-- `handleSolanaCrossAnalysis` (lines 1163-1226) as a pure function of
the per-address upstream outcomes; the first component is the list of
common-token entries rendered at lines 1200-1208 (`slice(0, 10)` of the
filtered, sorted `tokensByMint` entries), the second the number of
upstream calls issued. -/
def handleSolanaCrossAnalysis (addresses : Option (List String))
    (fetch : String → Upstream WalletToken) :
    Except McpError (List (String × MintInfo)) × Nat :=
  match addresses with
  | none =>
    (Except.error (McpError.mk (-32602) "An array of addresses is required"), 0)
  | some addrs =>
    if addrs.length == 0 then
      (Except.error (McpError.mk (-32602) "An array of addresses is required"), 0)
    else
      match collectResults fetch addrs with
      | Except.error e =>
        (Except.error (McpError.mk (-32000) ("Error in cross analysis: " ++ e)),
          addrs.length)
      | Except.ok datas =>
        let tbm := buildTokensByMint (addrs.zip datas) []
        (Except.ok ((commonTokens tbm).take 10), addrs.length)

/-! ## Claims -/

/-- C1, counterexample: the cache key is **not** canonical.  The two
parameter objects with entries a=1,b=2 and b=2,a=1 have equal key/value
sets (their entry lists are permutations of one another), yet their
cache keys differ, because `JSON.stringify` serializes object keys in
insertion order. -/
theorem claim_C1_counterexample :
    (objEntries (JVal.obj [("a", JVal.num 1), ("b", JVal.num 2)])).Perm
      (objEntries (JVal.obj [("b", JVal.num 2), ("a", JVal.num 1)])) ∧
    cacheKey "solana_trades" (JVal.obj [("a", JVal.num 1), ("b", JVal.num 2)]) ≠
      cacheKey "solana_trades" (JVal.obj [("b", JVal.num 2), ("a", JVal.num 1)]) := by
  constructor
  · exact List.Perm.swap ("b", JVal.num 2) ("a", JVal.num 1) []
  · decide

/-- C1, amended: the cache key is derived deterministically from the
method name and the insertion-order `JSON.stringify` serialization of
the parameters; two parameter objects yield the same cache key whenever
their serializations coincide (in particular when their key insertion
orders and values are identical), but equal key/value sets in different
insertion order may yield different keys. -/
theorem claim_C1 (method : String) (p q : JVal)
    (h : jsonStringify p = jsonStringify q) :
    cacheKey method p = cacheKey method q := by
  simp [cacheKey, h]

/-- Witness for C1 (amended). -/
theorem claim_C1_witness :
    cacheKey "solana_trades" (JVal.obj [("a", JVal.num 1)]) =
      cacheKey "solana_trades" (JVal.obj [("a", JVal.num 1)]) :=
  claim_C1 "solana_trades" _ _ rfl

/-- C2: a generative call invokes the provider at most 3 times; a
non-retryable first failure (status neither 429 nor ≥ 500) is terminal
after exactly one invocation; a retryable failure triggers a retry; and
three retryable-class failures exhaust the ceiling of 3 attempts, after
which the last failure propagates. -/
theorem claim_C2 (provider : Nat → Except ApiError String) :
    (runGenerate provider).2 ≤ 3 ∧
    (∀ e, provider 0 = Except.error e → retryableStatus e = false →
      runGenerate provider = (Except.error e, 1)) ∧
    (∀ e t, provider 0 = Except.error e → retryableStatus e = true →
      provider 1 = Except.ok t → runGenerate provider = (Except.ok t, 2)) ∧
    (∀ e0 e1 e2, provider 0 = Except.error e0 → retryableStatus e0 = true →
      provider 1 = Except.error e1 → retryableStatus e1 = true →
      provider 2 = Except.error e2 →
      runGenerate provider = (Except.error e2, 3)) := by
  refine ⟨?_, ?_, ?_, ?_⟩
  · simp only [runGenerate]
    cases h0 : provider 0 with
    | ok t => simp [retryLoop, maxAttempts, h0]
    | error e0 =>
      simp only [retryLoop, maxAttempts, h0]
      split
      · simp
      · cases h1 : provider 1 with
        | ok t => simp [retryLoop, h1]
        | error e1 =>
          simp only [retryLoop, h1]
          split
          · simp
          · cases h2 : provider 2 with
            | ok t => simp [retryLoop, h2]
            | error e2 => simp [retryLoop, h2]
  · intro e h0 hr
    simp [runGenerate, retryLoop, maxAttempts, h0, hr]
  · intro e t h0 hr h1
    simp [runGenerate, retryLoop, maxAttempts, h0, hr, h1]
  · intro e0 e1 e2 h0 hr0 h1 hr1 h2
    simp [runGenerate, retryLoop, maxAttempts, h0, hr0, h1, hr1, h2]

/-- Witness for C2: a provider that is rate-limited on every attempt is
invoked exactly 3 times and the last failure propagates. -/
theorem claim_C2_witness :
    runGenerate (fun _ => Except.error (ApiError.mk (some 429) "rate limited")) =
      (Except.error (ApiError.mk (some 429) "rate limited"), 3) :=
  (claim_C2 _).2.2.2 _ _ _ rfl (by decide) rfl (by decide) rfl

/-- C3: both generative handlers truncate with the same function; a
sequence longer than 10 is stored as element 0 (the anchor) followed by
the last 9 elements, 10 in total; a sequence of length at most 10 is
stored unchanged; and every session write-back performed by either
handler goes through its truncation function. -/
theorem claim_C3 :
    (∀ turns : List Msg, truncateCtxOpenAI turns = truncateCtxAnthropic turns) ∧
    (∀ turns : List Msg, 10 < turns.length →
      truncateCtxOpenAI turns = turns.take 1 ++ turns.drop (turns.length - 9) ∧
      (truncateCtxOpenAI turns).length = 10) ∧
    (∀ turns : List Msg, turns.length ≤ 10 → truncateCtxOpenAI turns = turns) ∧
    (∀ provider store p,
      (handleOpenAIGenerate provider store p).2 = store ∨
      ∃ sid upd, (handleOpenAIGenerate provider store p).2 =
        storeSet store sid (truncateCtxOpenAI upd)) ∧
    (∀ provider store p,
      (handleAnthropicGenerate provider store p).2 = store ∨
      ∃ sid upd, (handleAnthropicGenerate provider store p).2 =
        storeSet store sid (truncateCtxAnthropic upd)) := by
  refine ⟨fun turns => rfl, fun turns h => ?_, fun turns h => ?_, ?_, ?_⟩
  · refine ⟨by simp [truncateCtxOpenAI, h], ?_⟩
    simp only [truncateCtxOpenAI, if_pos h, List.length_append, List.length_take,
      List.length_drop]
    omega
  · simp [truncateCtxOpenAI, Nat.not_lt.mpr h]
  · intro provider store p
    unfold handleOpenAIGenerate
    by_cases hp : paramFalsy p.prompt
    · simp [hp]
    · by_cases hs : paramFalsy p.session_id
      · simp [hp, hs]
      · rcases hg : runGenerate provider with ⟨res, n⟩
        cases res with
        | error e => simp [hp, hs, hg]
        | ok r => simp only [hp, hs, hg]; right; exact ⟨_, _, rfl⟩
  · intro provider store p
    unfold handleAnthropicGenerate
    by_cases hp : paramFalsy p.prompt
    · simp [hp]
    · by_cases hs : paramFalsy p.session_id
      · simp [hp, hs]
      · rcases hg : runGenerate provider with ⟨res, n⟩
        cases res with
        | error e => simp [hp, hs, hg]
        | ok r => simp only [hp, hs, hg]; right; exact ⟨_, _, rfl⟩

/-- Witness for C3: an 11-turn sequence keeps turn 0 plus the 9 most
recent turns. -/
theorem claim_C3_witness :
    truncateCtxOpenAI ((List.range 11).map fun i => Msg.mk "user" (toString i)) =
      ((List.range 11).map fun i => Msg.mk "user" (toString i)).take 1 ++
        ((List.range 11).map fun i => Msg.mk "user" (toString i)).drop 2 ∧
    (truncateCtxOpenAI ((List.range 11).map fun i => Msg.mk "user" (toString i))).length =
      10 :=
  ⟨((claim_C3.2.1 _ (by decide)).1.trans (by decide)), (claim_C3.2.1 _ (by decide)).2⟩

/-- C10: a generative call that fails — by parameter validation or by
provider failure after the retry loop — leaves the session context
store unchanged; the store is written (as one truncated sequence) only
when the call returns a success. -/
theorem claim_C10 (provider : Nat → Except ApiError String) (store : CtxStore)
    (p : GenParams) :
    (∀ e, (handleOpenAIGenerate provider store p).1 = Except.error e →
      (handleOpenAIGenerate provider store p).2 = store) ∧
    (∀ e, (handleAnthropicGenerate provider store p).1 = Except.error e →
      (handleAnthropicGenerate provider store p).2 = store) ∧
    (∀ r, (handleOpenAIGenerate provider store p).1 = Except.ok r →
      ∃ sid upd, (handleOpenAIGenerate provider store p).2 =
        storeSet store sid (truncateCtxOpenAI upd)) ∧
    (∀ r, (handleAnthropicGenerate provider store p).1 = Except.ok r →
      ∃ sid upd, (handleAnthropicGenerate provider store p).2 =
        storeSet store sid (truncateCtxAnthropic upd)) := by
  refine ⟨?_, ?_, ?_, ?_⟩
  · intro e hx
    unfold handleOpenAIGenerate at hx ⊢
    by_cases hp : paramFalsy p.prompt
    · simp [hp]
    · by_cases hs : paramFalsy p.session_id
      · simp [hp, hs]
      · rcases hg : runGenerate provider with ⟨res, n⟩
        cases res with
        | error e2 => simp [hp, hs, hg]
        | ok r => simp [hp, hs, hg] at hx
  · intro e hx
    unfold handleAnthropicGenerate at hx ⊢
    by_cases hp : paramFalsy p.prompt
    · simp [hp]
    · by_cases hs : paramFalsy p.session_id
      · simp [hp, hs]
      · rcases hg : runGenerate provider with ⟨res, n⟩
        cases res with
        | error e2 => simp [hp, hs, hg]
        | ok r => simp [hp, hs, hg] at hx
  · intro r hx
    unfold handleOpenAIGenerate at hx ⊢
    by_cases hp : paramFalsy p.prompt
    · simp [hp] at hx
    · by_cases hs : paramFalsy p.session_id
      · simp [hp, hs] at hx
      · rcases hg : runGenerate provider with ⟨res, n⟩
        cases res with
        | error e => simp [hp, hs, hg] at hx
        | ok t =>
          simp only [hp, hs, hg, if_neg]
          exact ⟨p.session_id.getD "",
            (storeGet store (p.session_id.getD "")).getD [] ++
              [Msg.mk "user" (p.prompt.getD ""), Msg.mk "assistant" t],
            by simp [hp, hs]⟩
  · intro r hx
    unfold handleAnthropicGenerate at hx ⊢
    by_cases hp : paramFalsy p.prompt
    · simp [hp] at hx
    · by_cases hs : paramFalsy p.session_id
      · simp [hp, hs] at hx
      · rcases hg : runGenerate provider with ⟨res, n⟩
        cases res with
        | error e => simp [hp, hs, hg] at hx
        | ok t =>
          simp only [hp, hs, hg, if_neg]
          exact ⟨p.session_id.getD "",
            (storeGet store (p.session_id.getD "")).getD [] ++
              [Msg.mk "user" (p.prompt.getD ""), Msg.mk "assistant" t],
            by simp [hp, hs]⟩

/-- Witness for C10: a call whose provider fails non-retryably leaves
the store unchanged. -/
theorem claim_C10_witness :
    (handleOpenAIGenerate (fun _ => Except.error (ApiError.mk (some 400) "bad request"))
      [("s1", [])] (GenParams.mk (some "hi") (some "s1"))).2 = [("s1", [])] :=
  (claim_C10 _ _ _).1 (McpError.mk (-32000) "OpenAI error: bad request") rfl

/-- C4: a request missing `method` or whose protocol version field
differs from "2.0" is answered with error code `-32600` (HTTP 400, id
null); no method handler is invoked and no cache tier is read or
written, and the tier-1 state is unchanged. -/
theorem claim_C4 (env : DispatchEnv) (tier1 : Tier1) (req : Envelope)
    (h : paramFalsy req.method = true ∨ req.jsonrpc ≠ some "2.0") :
    (dispatch env tier1 req).out =
      RpcOut.mk 400 (RpcBody.err (-32600) "Invalid JSON-RPC request" none) ∧
    (dispatch env tier1 req).tier1 = tier1 ∧
    (dispatch env tier1 req).log = emptyLog := by
  have hinv : envelopeInvalid req = true := by
    rcases h with h | h
    · simp [envelopeInvalid, h]
    · simp [envelopeInvalid, h]
  simp [dispatch, hinv]

/-- Witness for C4: a request with protocol version "1.0" is rejected
with `-32600`. -/
theorem claim_C4_witness :
    (dispatch (DispatchEnv.mk none fun _ _ => Except.error (McpError.mk (-32603) "x")) []
        (Envelope.mk (some "1.0") (some "solana_trades") JVal.null
          (some (JVal.num 1)))).out =
      RpcOut.mk 400 (RpcBody.err (-32600) "Invalid JSON-RPC request" none) :=
  (claim_C4 _ _ _ (Or.inr (by decide))).1

/-- The response and updated tier-1 state of the invoke-and-populate
phase do not depend on the tier-2 connection or on the incoming log
(the tier-2 write is fire-and-forget: its outcome is caught). -/
theorem invokeAndRespond_tier2_irrel (t2 t2' : Option Tier2Conn)
    (handler : String → JVal → Except McpError JVal) (tier1 : Tier1)
    (method : String) (params : JVal) (id : JVal) (lb lb' : DispatchLog) :
    (invokeAndRespond (DispatchEnv.mk t2 handler) tier1 method params id lb).out =
      (invokeAndRespond (DispatchEnv.mk t2' handler) tier1 method params id lb').out ∧
    (invokeAndRespond (DispatchEnv.mk t2 handler) tier1 method params id lb).tier1 =
      (invokeAndRespond (DispatchEnv.mk t2' handler) tier1 method params id lb').tier1 := by
  unfold invokeAndRespond
  by_cases hs : method ∈ supportedMethods
  · cases hh : handler method params with
    | error e => simp [hs, hh]
    | ok result =>
      by_cases hc : isCacheable method = true
      · simp [hs, hh, hc]
      · simp [hs, hh, hc]
  · simp [hs]

/-- C7: whenever every tier-2 read for this request fails (or misses)
and the tier-2 write outcome is arbitrary — in particular a failure —
the request produces the same response and the same tier-1 state as it
would with no tier 2 configured at all: tier-2 failures degrade to
tier-1-only behavior and are never surfaced to the caller. -/
theorem claim_C7 (handler : String → JVal → Except McpError JVal) (tier1 : Tier1)
    (req : Envelope) (conn : Tier2Conn)
    (hget : ∀ k, conn.getResult k = Except.error () ∨ conn.getResult k = Except.ok none) :
    (dispatch (DispatchEnv.mk (some conn) handler) tier1 req).out =
      (dispatch (DispatchEnv.mk none handler) tier1 req).out ∧
    (dispatch (DispatchEnv.mk (some conn) handler) tier1 req).tier1 =
      (dispatch (DispatchEnv.mk none handler) tier1 req).tier1 := by
  unfold dispatch
  by_cases hinv : envelopeInvalid req = true
  · simp [hinv]
  · simp only [hinv, Bool.false_eq_true, if_neg, not_false_iff]
    by_cases hc : isCacheable (req.method.getD "") = true
    · simp only [hc, if_pos]
      cases hl : tier1Lookup tier1 (cacheKey (req.method.getD "") req.params) with
      | some v => simp
      | none =>
        have h2 : tier2Lookup (some conn)
            (cacheKey (req.method.getD "") req.params) = none := by
          simp only [tier2Lookup]
          rcases hget (cacheKey (req.method.getD "") req.params) with h | h <;>
            by_cases hr : conn.isReady = true <;> simp [h, hr]
        simp only [h2]
        exact invokeAndRespond_tier2_irrel _ _ _ _ _ _ _ _ _
    · simp only [hc, if_neg, Bool.false_eq_true, not_false_iff]
      exact invokeAndRespond_tier2_irrel _ _ _ _ _ _ _ _ _

/-- Witness for C7: with a ready Redis connection whose every read and
write fails, a cacheable request is answered exactly as with no Redis
configured. -/
theorem claim_C7_witness :
    (dispatch (DispatchEnv.mk
        (some (Tier2Conn.mk true (fun _ => Except.error ()) (Except.error ())))
        (fun _ _ => Except.ok (JVal.str "r"))) []
        (Envelope.mk (some "2.0") (some "solana_trades")
          (JVal.obj [("mint_address", JVal.str "M")]) (some (JVal.num 1)))).out =
      (dispatch (DispatchEnv.mk none (fun _ _ => Except.ok (JVal.str "r"))) []
        (Envelope.mk (some "2.0") (some "solana_trades")
          (JVal.obj [("mint_address", JVal.str "M")]) (some (JVal.num 1)))).out :=
  (claim_C7 _ _ _ _ (fun _ => Or.inl rfl)).1

/-- C8: the three supported methods whose names contain a generate or
context marker (`openai_generate`, `anthropic_generate`,
`clear_context`) are classified non-cacheable; on every call the
dispatcher invokes the handler, reads no cache tier, writes no cache
tier, and leaves tier 1 unchanged — so a second identical call invokes
the handler again. -/
theorem claim_C8 (env : DispatchEnv) (tier1 : Tier1) (req : Envelope) (m : String)
    (hm : req.method = some m)
    (hmem : m = "openai_generate" ∨ m = "anthropic_generate" ∨ m = "clear_context")
    (hrpc : req.jsonrpc = some "2.0") (hid : idFalsy req.id = false) :
    isCacheable m = false ∧
    (dispatch env tier1 req).log.handlerInvoked = true ∧
    (dispatch env tier1 req).log.tier1Read = false ∧
    (dispatch env tier1 req).log.tier2Read = false ∧
    (dispatch env tier1 req).log.tier1Write = none ∧
    (dispatch env tier1 req).log.tier2WriteReq = none ∧
    (dispatch env tier1 req).tier1 = tier1 := by
  have hinv : envelopeInvalid req = false := by
    rcases hmem with h | h | h <;> subst h <;>
      simp [envelopeInvalid, hrpc, hm, hid, paramFalsy]
  have hc : isCacheable m = false := by
    rcases hmem with h | h | h <;> subst h <;> decide
  have hsup : supportedMethods.contains m = true := by
    rcases hmem with h | h | h <;> subst h <;> decide
  have hd : dispatch env tier1 req =
      invokeAndRespond env tier1 m req.params (req.id.getD JVal.null) emptyLog := by
    unfold dispatch
    simp [hinv, hm, hc]
  rw [hd]
  unfold invokeAndRespond
  simp only [hsup, if_pos]
  cases hh : env.handler m req.params with
  | error e => simp [hc, emptyLog]
  | ok r => simp [hc, emptyLog]

/-- Witness for C8: a `clear_context` call invokes the handler and
touches no cache. -/
theorem claim_C8_witness :
    isCacheable "clear_context" = false ∧
    (dispatch (DispatchEnv.mk none (fun _ _ => Except.ok (JVal.str "ok"))) []
        (Envelope.mk (some "2.0") (some "clear_context") (JVal.obj [])
          (some (JVal.num 1)))).log.handlerInvoked = true :=
  ⟨(claim_C8 (DispatchEnv.mk none (fun _ _ => Except.ok (JVal.str "ok"))) []
      (Envelope.mk (some "2.0") (some "clear_context") (JVal.obj []) (some (JVal.num 1)))
      "clear_context" rfl (Or.inr (Or.inr rfl)) rfl rfl).1,
   (claim_C8 (DispatchEnv.mk none (fun _ _ => Except.ok (JVal.str "ok"))) []
      (Envelope.mk (some "2.0") (some "clear_context") (JVal.obj []) (some (JVal.num 1)))
      "clear_context" rfl (Or.inr (Or.inr rfl)) rfl rfl).2.1⟩

/-- C9: a cacheable request that misses both tiers and whose handler
succeeds is answered with the handler result; the result is written to
tier 1 unconditionally with the default TTL of 120 seconds, and a
tier-2 write with expiry 300 seconds (strictly longer) is attempted
exactly when the method name is high-value (contains `_overview`,
`_details` or `_holders`) and the tier-2 client is configured and
ready. -/
theorem claim_C9 (env : DispatchEnv) (tier1 : Tier1) (req : Envelope) (m : String)
    (v : JVal)
    (hm : req.method = some m) (hmne : m ≠ "")
    (hrpc : req.jsonrpc = some "2.0") (hid : idFalsy req.id = false)
    (hc : isCacheable m = true) (hsup : supportedMethods.contains m = true)
    (h1 : tier1Lookup tier1 (cacheKey m req.params) = none)
    (h2 : tier2Lookup env.tier2 (cacheKey m req.params) = none)
    (hh : env.handler m req.params = Except.ok v) :
    (dispatch env tier1 req).out = RpcOut.mk 200 (RpcBody.ok v (req.id.getD JVal.null)) ∧
    (dispatch env tier1 req).tier1 = tier1Set tier1 (cacheKey m req.params) v ∧
    (dispatch env tier1 req).log.tier1Write =
      some (cacheKey m req.params, v, tier1DefaultTTL) ∧
    (dispatch env tier1 req).log.tier2WriteReq =
      (match env.tier2 with
       | some conn =>
         if conn.isReady && isHighValue m then
           some (cacheKey m req.params, jsonStringify v, tier2TTL)
         else none
       | none => none) ∧
    tier1DefaultTTL = 120 ∧ tier2TTL = 300 ∧ tier1DefaultTTL < tier2TTL := by
  have hinv : envelopeInvalid req = false := by
    simp [envelopeInvalid, hrpc, hm, hid, paramFalsy, hmne]
  have hsup2 : m ∈ supportedMethods := by simpa using hsup
  unfold dispatch
  simp only [hinv, Bool.false_eq_true, if_neg, not_false_iff, hm, Option.getD_some, hc,
    if_pos, h1, h2]
  unfold invokeAndRespond
  simp [hsup2, hh, hc, tier1DefaultTTL, tier2TTL]

/-- Witness for C9: a `solana_token_details` full miss populates tier 1
with the handler result. -/
theorem claim_C9_witness :
    (dispatch (DispatchEnv.mk none (fun _ _ => Except.ok (JVal.str "res"))) []
        (Envelope.mk (some "2.0") (some "solana_token_details")
          (JVal.obj [("mint_address", JVal.str "M")]) (some (JVal.num 1)))).tier1 =
      tier1Set []
        (cacheKey "solana_token_details" (JVal.obj [("mint_address", JVal.str "M")]))
        (JVal.str "res") :=
  (claim_C9 (DispatchEnv.mk none (fun _ _ => Except.ok (JVal.str "res"))) []
      (Envelope.mk (some "2.0") (some "solana_token_details")
        (JVal.obj [("mint_address", JVal.str "M")]) (some (JVal.num 1)))
      "solana_token_details" (JVal.str "res") rfl (by decide) rfl (by decide) (by decide)
      (by decide) rfl rfl rfl).2.1

/-- C5: a wallet-overview request with a present address issues exactly
two upstream calls (both are created before `Promise.all` awaits); if
either call fails the whole aggregation fails with code `-32000` and
the `Error fetching Solana data: ` message prefix; and a success is
returned only when both calls succeeded — never a partial result. -/
theorem claim_C5 (address : String) (tokensCall : Upstream WalletToken)
    (nftsCall : Upstream NftItem) (haddr : address ≠ "") :
    (handleSolanaWalletOverview tokensCall nftsCall (some address)).2 = 2 ∧
    (∀ e, tokensCall = Except.error e →
      (handleSolanaWalletOverview tokensCall nftsCall (some address)).1 =
        Except.error (McpError.mk (-32000) ("Error fetching Solana data: " ++ e))) ∧
    (∀ e, nftsCall = Except.error e →
      ∃ msg, (handleSolanaWalletOverview tokensCall nftsCall (some address)).1 =
        Except.error (McpError.mk (-32000) ("Error fetching Solana data: " ++ msg))) ∧
    (∀ r, (handleSolanaWalletOverview tokensCall nftsCall (some address)).1 =
        Except.ok r →
      (∃ d, tokensCall = Except.ok d) ∧ ∃ d, nftsCall = Except.ok d) := by
  have hf : paramFalsy (some address) = false := by simp [paramFalsy, haddr]
  unfold handleSolanaWalletOverview
  rcases tokensCall with e1 | td <;> rcases nftsCall with e2 | nd <;>
    simp [hf] <;> intro x hx <;> simp_all

/-- Witness for C5: the NFT sub-call failing while the tokens sub-call
succeeds yields an overall `-32000` failure after two calls. -/
theorem claim_C5_witness :
    (handleSolanaWalletOverview (Except.ok (some []))
        (Except.error "NFT service down") (some "w1")).2 = 2 ∧
    ∃ msg, (handleSolanaWalletOverview (Except.ok (some []))
        (Except.error "NFT service down") (some "w1")).1 =
      Except.error (McpError.mk (-32000) ("Error fetching Solana data: " ++ msg)) :=
  ⟨(claim_C5 "w1" _ _ (by decide)).1,
   (claim_C5 "w1" _ _ (by decide)).2.2.1 "NFT service down" rfl⟩

/-- `Promise.all` fulfils when every per-address call fulfils. -/
theorem collectResults_ok (fetch : String → Upstream WalletToken) :
    ∀ addrs : List String, (∀ a ∈ addrs, ∃ d, fetch a = Except.ok d) →
      ∃ ds, collectResults fetch addrs = Except.ok ds
  | [], _ => ⟨[], rfl⟩
  | a :: rest, h => by
    obtain ⟨d, hd⟩ := h a (List.mem_cons_self a rest)
    obtain ⟨ds, hds⟩ :=
      collectResults_ok fetch rest (fun b hb => h b (List.mem_cons_of_mem a hb))
    exact ⟨d :: ds, by simp [collectResults, hd, hds]⟩

/-- C6: with a non-empty address list whose per-address calls all
succeed, cross-analysis succeeds after one call per address and emits
at most 10 tokens, each held by more than one address, in descending
holder-count order; and on the concrete two-address instance
A = (mintX: 10, mintY: 5), B = (mintX: 3) the result lists exactly
mintX, held by both A and B (holder count 2), and omits mintY. -/
theorem claim_C6 :
    (∀ (addrs : List String) (fetch : String → Upstream WalletToken),
      addrs ≠ [] → (∀ a ∈ addrs, ∃ d, fetch a = Except.ok d) →
      ∃ res, handleSolanaCrossAnalysis (some addrs) fetch =
          (Except.ok res, addrs.length) ∧
        res.length ≤ 10 ∧
        (∀ kv ∈ res, 1 < kv.2.holders.length) ∧
        List.Sorted (fun a b : String × MintInfo =>
          b.2.holders.length ≤ a.2.holders.length) res) ∧
    handleSolanaCrossAnalysis (some ["A", "B"])
        (fun a => if a == "A" then
            Except.ok (some [WalletToken.mk "mintX" (some "X") 10 (some 7),
              WalletToken.mk "mintY" (some "Y") 5 (some 2)])
          else Except.ok (some [WalletToken.mk "mintX" (some "X") 3 none])) =
      (Except.ok [("mintX",
          MintInfo.mk "X" [("A", Holding.mk 10 7), ("B", Holding.mk 3 0)])], 2) := by
  constructor
  · intro addrs fetch hne hok
    obtain ⟨ds, hds⟩ := collectResults_ok fetch addrs hok
    have hlen : (addrs.length == 0) = false := by
      cases addrs with
      | nil => exact absurd rfl hne
      | cons a rest => rfl
    refine ⟨(commonTokens (buildTokensByMint (addrs.zip ds) [])).take 10, ?_, ?_, ?_, ?_⟩
    · simp [handleSolanaCrossAnalysis, hlen, hds]
    · simp [List.length_take]
    · intro kv hkv
      have hmem : kv ∈ commonTokens (buildTokensByMint (addrs.zip ds) []) :=
        List.mem_of_mem_take hkv
      have hmem2 : kv ∈ (buildTokensByMint (addrs.zip ds) []).filter
          (fun x => decide (1 < x.2.holders.length)) :=
        (List.mergeSort_perm _ holderCountGe).mem_iff.mp hmem
      exact of_decide_eq_true (List.mem_filter.mp hmem2).2
    · have htrans : ∀ a b c : String × MintInfo, holderCountGe a b = true →
          holderCountGe b c = true → holderCountGe a c = true := by
        intro a b c hab hbc
        simp only [holderCountGe, decide_eq_true_eq] at hab hbc ⊢
        omega
      have htotal : ∀ a b : String × MintInfo,
          (holderCountGe a b || holderCountGe b a) = true := by
        intro a b
        simp only [holderCountGe, Bool.or_eq_true, decide_eq_true_eq]
        omega
      have hsorted := List.sorted_mergeSort htrans htotal
        ((buildTokensByMint (addrs.zip ds) []).filter
          (fun x => decide (1 < x.2.holders.length)))
      have htake := List.Pairwise.sublist (List.take_sublist 10 _) hsorted
      exact htake.imp (fun hab => of_decide_eq_true hab)
  · simp [handleSolanaCrossAnalysis, collectResults, buildTokensByMint, addWalletData,
      addHolding, holdersSet, commonTokens, jsOrNum, jsOrStr, List.mergeSort_singleton]

/-- Witness for C6: the concrete two-address instance satisfies the
general bound-and-filter properties. -/
theorem claim_C6_witness :
    ∃ res, handleSolanaCrossAnalysis (some ["A", "B"])
        (fun a => if a == "A" then
            Except.ok (some [WalletToken.mk "mintX" (some "X") 10 (some 7),
              WalletToken.mk "mintY" (some "Y") 5 (some 2)])
          else Except.ok (some [WalletToken.mk "mintX" (some "X") 3 none])) =
        (Except.ok res, (["A", "B"] : List String).length) ∧
      res.length ≤ 10 ∧
      (∀ kv ∈ res, 1 < kv.2.holders.length) ∧
      List.Sorted (fun a b : String × MintInfo =>
        b.2.holders.length ≤ a.2.holders.length) res :=
  claim_C6.1 ["A", "B"] _ (by decide)
    (fun a _ => by
      by_cases h : (a == "A") = true
      · exact ⟨some [WalletToken.mk "mintX" (some "X") 10 (some 7),
          WalletToken.mk "mintY" (some "Y") 5 (some 2)], by simp [h]⟩
      · exact ⟨some [WalletToken.mk "mintX" (some "X") 3 none], by simp [h]⟩)

end Mcp
